import Mathlib

/-!
# Verification of the Artemis SVL firmware-upload wire protocol

Shallow embedding of the protocol core of
`src/tools/artemis_firmware_uploader_gui.py`:

* the CRC16 engine (`get_crc16`, table `crcTable`),
* the packet codec (`send_packet`, `wait_for_packet`),
* the upload session state machine (`phase_setup`, `phase_bootload`,
  `upload_main`).

Bytes are modelled as `Nat` (with explicit `< 256` hypotheses where the
source would raise on larger values); byte strings as `List Nat`.  The
serial transport is modelled as the byte stream it delivers (`List Nat`:
a read of `n` bytes returns the next `min n remaining` bytes, fewer
meaning timeout) and, at the session layer, as the stream of decoded
packets (`Nat → Packet`).
-/

namespace ArtemisSVL

/-- Command codes (`SVL_CMD_*` constants in the source). -/
def SVL_CMD_VER : Nat := 0x01
def SVL_CMD_BL : Nat := 0x02
def SVL_CMD_NEXT : Nat := 0x03
def SVL_CMD_FRAME : Nat := 0x04
def SVL_CMD_RETRY : Nat := 0x05
def SVL_CMD_DONE : Nat := 0x06
def SVL_CMD_MSG : Nat := 0x07
def SVL_CMD_DATE : Nat := 0x08

/-- The 256-entry CRC table `crcTable` from the source (CRC-16 poly 0x8005,
non-reflected, init 0). -/
def crcTable : List Nat := [
  0x0000, 0x8005, 0x800F, 0x000A, 0x801B, 0x001E, 0x0014, 0x8011,
  0x8033, 0x0036, 0x003C, 0x8039, 0x0028, 0x802D, 0x8027, 0x0022,
  0x8063, 0x0066, 0x006C, 0x8069, 0x0078, 0x807D, 0x8077, 0x0072,
  0x0050, 0x8055, 0x805F, 0x005A, 0x804B, 0x004E, 0x0044, 0x8041,
  0x80C3, 0x00C6, 0x00CC, 0x80C9, 0x00D8, 0x80DD, 0x80D7, 0x00D2,
  0x00F0, 0x80F5, 0x80FF, 0x00FA, 0x80EB, 0x00EE, 0x00E4, 0x80E1,
  0x00A0, 0x80A5, 0x80AF, 0x00AA, 0x80BB, 0x00BE, 0x00B4, 0x80B1,
  0x8093, 0x0096, 0x009C, 0x8099, 0x0088, 0x808D, 0x8087, 0x0082,
  0x8183, 0x0186, 0x018C, 0x8189, 0x0198, 0x819D, 0x8197, 0x0192,
  0x01B0, 0x81B5, 0x81BF, 0x01BA, 0x81AB, 0x01AE, 0x01A4, 0x81A1,
  0x01E0, 0x81E5, 0x81EF, 0x01EA, 0x81FB, 0x01FE, 0x01F4, 0x81F1,
  0x81D3, 0x01D6, 0x01DC, 0x81D9, 0x01C8, 0x81CD, 0x81C7, 0x01C2,
  0x0140, 0x8145, 0x814F, 0x014A, 0x815B, 0x015E, 0x0154, 0x8151,
  0x8173, 0x0176, 0x017C, 0x8179, 0x0168, 0x816D, 0x8167, 0x0162,
  0x8123, 0x0126, 0x012C, 0x8129, 0x0138, 0x813D, 0x8137, 0x0132,
  0x0110, 0x8115, 0x811F, 0x011A, 0x810B, 0x010E, 0x0104, 0x8101,
  0x8303, 0x0306, 0x030C, 0x8309, 0x0318, 0x831D, 0x8317, 0x0312,
  0x0330, 0x8335, 0x833F, 0x033A, 0x832B, 0x032E, 0x0324, 0x8321,
  0x0360, 0x8365, 0x836F, 0x036A, 0x837B, 0x037E, 0x0374, 0x8371,
  0x8353, 0x0356, 0x035C, 0x8359, 0x0348, 0x834D, 0x8347, 0x0342,
  0x03C0, 0x83C5, 0x83CF, 0x03CA, 0x83DB, 0x03DE, 0x03D4, 0x83D1,
  0x83F3, 0x03F6, 0x03FC, 0x83F9, 0x03E8, 0x83ED, 0x83E7, 0x03E2,
  0x83A3, 0x03A6, 0x03AC, 0x83A9, 0x03B8, 0x83BD, 0x83B7, 0x03B2,
  0x0390, 0x8395, 0x839F, 0x039A, 0x838B, 0x038E, 0x0384, 0x8381,
  0x0280, 0x8285, 0x828F, 0x028A, 0x829B, 0x029E, 0x0294, 0x8291,
  0x82B3, 0x02B6, 0x02BC, 0x82B9, 0x02A8, 0x82AD, 0x82A7, 0x02A2,
  0x82E3, 0x02E6, 0x02EC, 0x82E9, 0x02F8, 0x82FD, 0x82F7, 0x02F2,
  0x02D0, 0x82D5, 0x82DF, 0x02DA, 0x82CB, 0x02CE, 0x02C4, 0x82C1,
  0x8243, 0x0246, 0x024C, 0x8249, 0x0258, 0x825D, 0x8257, 0x0252,
  0x0270, 0x8275, 0x827F, 0x027A, 0x826B, 0x026E, 0x0264, 0x8261,
  0x0220, 0x8225, 0x822F, 0x022A, 0x823B, 0x023E, 0x0234, 0x8231,
  0x8213, 0x0216, 0x021C, 0x8219, 0x0208, 0x820D, 0x8207, 0x0202]

/-- One iteration of the loop body of `get_crc16`:
`tableAddr = ch ^ (crc >> 8)`, `CRCH = (crcTable[tableAddr] >> 8) ^ (crc & 0xFF)`,
`CRCL = crcTable[tableAddr] & 0x00FF`, `crc = CRCH << 8 | CRCL`. -/
def crcStep (crc ch : Nat) : Nat :=
  let tableAddr := ch ^^^ (crc >>> 8)
  let entry := crcTable.getD tableAddr 0
  let CRCH := (entry >>> 8) ^^^ (crc &&& 0xFF)
  let CRCL := entry &&& 0x00FF
  (CRCH <<< 8) ||| CRCL

/-- Source `get_crc16(data)`: left-to-right table-driven fold seeded with 0. -/
def get_crc16 (data : List Nat) : Nat :=
  data.foldl crcStep 0

/-- Python big-endian `n.to_bytes(2, big)` for `n < 2^16` (the source raises otherwise). -/
def toBytes2BE (n : Nat) : List Nat :=
  [n / 256, n % 256]

/-- Python big-endian unsigned `int.from_bytes(bs)`. -/
def fromBytesBE (bs : List Nat) : Nat :=
  bs.foldl (fun acc b => acc * 256 + b) 0

/-- A decoded packet (the `packet` dict of `wait_for_packet`).
The source initialises the dict as
with `len = 0`, `cmd = 0`, `data = 0`, `crc = 1`, `timeout = 1`; the
placeholder `data = 0` (a scalar, never read unless `timeout = 0`) is
modelled as the empty byte list. -/
structure Packet where
  len : Nat
  cmd : Nat
  data : List Nat
  crc : Nat
  timeout : Nat
  deriving Repr, DecidableEq

/-- The initial packet dict, returned unchanged (except `len`) on every
early-exit path of `wait_for_packet`. -/
def initPacket : Packet := ⟨0, 0, [], 1, 1⟩

/-- Source `wait_for_packet(ser)` over the byte stream the transport delivers:
read 2 length bytes (fewer ⇒ timeout), interpret them big-endian as `L`;
if `L = 0` return the (unmodified) initial dict; read `L` payload bytes
(fewer ⇒ timeout); otherwise clear `timeout`, set `cmd = payload[0]`,
`data = payload[1:L-2]`, `crc = get_crc16(payload)`. -/
def wait_for_packet (stream : List Nat) : Packet :=
  let n := stream.take 2
  if n.length < 2 then initPacket
  else
    let L := fromBytesBE n
    if L = 0 then { initPacket with len := L }
    else
      let payload := (stream.drop 2).take L
      if payload.length ≠ L then { initPacket with len := L }
      else
        { len := L
          cmd := payload.headD 0
          data := (payload.drop 1).take (L - 3)
          crc := get_crc16 payload
          timeout := 0 }

/-- Source `send_packet(ser, cmd, data)`: the bytes written to the transport —
2-byte big-endian length `3 + len(data)`, then
`cmd ‖ data ‖ crc16(cmd ‖ data)` with the CRC appended as 2 big-endian
bytes. -/
def send_packet (cmd : Nat) (data : List Nat) : List Nat :=
  let payload := cmd :: data ++ toBytes2BE (get_crc16 (cmd :: data))
  toBytes2BE (3 + data.length) ++ payload

/-! ## Setup phase (`Uploader.phase_setup`)

At the session layer the transport is abstracted by the stream of
decoded packets `pkts : Nat → Packet`, `pkts i` being the result of the
`i`-th call to `wait_for_packet`. -/

/-- Observable outcome of the Setup loop: the returned
`setup_failed` flag, the recorded `installed_bootloader` version (if
any), the packets the host sent, and the `MSG` payloads forwarded as
remote log lines, in order. -/
structure SetupRes where
  failed : Bool
  version : Option Nat
  sent : List (Nat × List Nat)
  remote : List (List Nat)
  deriving Repr, DecidableEq

/-- The `while` loop of `phase_setup`, at packet index `i` with the
current `packet_counter` value `counter`: abort on `timeout`, abort on
nonzero `crc`, on `VER` record the big-endian version and send `BL`
with empty data, forward `MSG` payloads, and abort once the
incremented counter exceeds 10. -/
def setup_loop (pkts : Nat → Packet) (i counter : Nat) : SetupRes :=
  let p := pkts i
  if p.timeout ≠ 0 then ⟨true, none, [], []⟩
  else if p.crc ≠ 0 then ⟨true, none, [], []⟩
  else if p.cmd = SVL_CMD_VER then
    ⟨false, some (fromBytesBE p.data), [(SVL_CMD_BL, [])], []⟩
  else
    let rest :=
      if counter + 1 > 10 then ⟨true, none, [], []⟩
      else setup_loop pkts (i + 1) (counter + 1)
    if p.cmd = SVL_CMD_MSG then { rest with remote := p.data :: rest.remote }
    else rest
termination_by 11 - counter
decreasing_by
  simp_wf
  omega

/-- Source `phase_setup` from the first decoded packet, with `packet_counter = 0`.
(The trigger sequence, 5-second settle, buffer flush and baud byte
precede the loop and do not affect its result.) -/
def phase_setup (pkts : Nat → Packet) : SetupRes :=
  setup_loop pkts 0 0

/-! ## Bootload phase (`Uploader.phase_bootload`) -/

/-- Source constant `frame_size = 512*4`. -/
def frame_size : Nat := 512 * 4

/-- Source constant `resend_max = 4`. -/
def resend_max : Nat := 4

/-- Source `total_frames = math.ceil(total_len / frame_size)` (exact ceiling
division). -/
def totalFrames (total_len : Nat) : Nat :=
  (total_len + frame_size - 1) / frame_size

/-- Source slice `application[(curr_frame-1)*frame_size : curr_frame*frame_size]`:
the slice sent for frame number `f` (1-based), truncated at the end of
the image.  For `f = 0` (a `RETRY` arriving before any `NEXT`) the
source computes the slice `application[-frame_size : 0]`, which is
empty under negative-index slicing. -/
def frameData (application : List Nat) (f : Nat) : List Nat :=
  if f = 0 then []
  else (application.drop ((f - 1) * frame_size)).take frame_size

/-- Mutable state of the Bootload loop, plus the observable output:
packets sent by the host and `MSG` payloads forwarded as remote log
lines (both chronological). -/
structure BLState where
  curr_frame : Nat
  resend_count : Nat
  done_sent : Bool
  sent : List (Nat × List Nat)
  remote : List (List Nat)
  deriving Repr, DecidableEq

/-- State at entry to the Bootload loop. -/
def blInit : BLState := ⟨0, 0, false, [], []⟩

/-- Result of one iteration of the Bootload loop: continue with a new
state, or leave the loop with the final `bl_failed` flag. -/
inductive StepRes where
  | cont (s : BLState)
  | halt (failed : Bool) (s : BLState)
  deriving Repr, DecidableEq

/-- The frame/close-out send that follows a handled `NEXT`/`RETRY`:
if `curr_frame <= total_frames` send the current frame as a `FRAME`
packet, else send `DONE` with empty data and set `done_sent`. -/
def bl_send (application : List Nat) (total_frames : Nat) (s : BLState) : BLState :=
  if s.curr_frame ≤ total_frames then
    { s with sent := s.sent ++ [(SVL_CMD_FRAME, frameData application s.curr_frame)] }
  else
    { s with done_sent := true, sent := s.sent ++ [(SVL_CMD_DONE, [])] }

/-- One iteration of the Bootload `while` loop on packet `p` in state
`s`, exactly mirroring the `if`/`elif` chain of the source: `MSG` is
forwarded (first, before any error check); `DONE` ends the phase
successfully; when `done_sent` every other packet is ignored; otherwise
`timeout`/`crc` is a fatal receive error, `NEXT` advances the frame
counter and clears `resend_count`, `RETRY` increments `resend_count`
(fatal at `resend_max`), anything else is an unknown fatal error; a
handled `NEXT`/`RETRY` falls through to `bl_send`. -/
def bl_step (application : List Nat) (total_frames : Nat) (p : Packet) (s : BLState) :
    StepRes :=
  if p.cmd = SVL_CMD_MSG then .cont { s with remote := s.remote ++ [p.data] }
  else if p.cmd = SVL_CMD_DONE then .halt false s
  else if s.done_sent then .cont s
  else if p.timeout ≠ 0 ∨ p.crc ≠ 0 then .halt true s
  else if p.cmd = SVL_CMD_NEXT then
    .cont (bl_send application total_frames
      { s with curr_frame := s.curr_frame + 1, resend_count := 0 })
  else if p.cmd = SVL_CMD_RETRY then
    let s' := { s with resend_count := s.resend_count + 1 }
    if s'.resend_count ≥ resend_max then .halt true s'
    else .cont (bl_send application total_frames s')
  else .halt true s

/-- The Bootload loop run for at most `fuel` iterations from packet
index `i` in state `s`; `none` means the loop had not left after `fuel`
iterations, `some (bl_failed, s)` that it left with that flag and
state. -/
def bl_run (application : List Nat) (total_frames : Nat) (pkts : Nat → Packet) :
    Nat → Nat → BLState → Option (Bool × BLState)
  | 0, _, _ => none
  | fuel + 1, i, s =>
    match bl_step application total_frames (pkts i) s with
    | .halt f s' => some (f, s')
    | .cont s' => bl_run application total_frames pkts fuel (i + 1) s'

/-- Source `phase_bootload` on image `application` and decoded-packet stream
`pkts`, bounded by `fuel` loop iterations. -/
def phase_bootload (application : List Nat) (pkts : Nat → Packet) (fuel : Nat) :
    Option (Bool × BLState) :=
  bl_run application (totalFrames application.length) pkts fuel 0 blInit

/-! ## Whole-session retry loop (`Uploader.upload_main`)

`upload_main` runs `for _ in range(3)`: each iteration calls
`phase_setup()` and, only if it did not fail, `phase_bootload()`;
the `bl_failed` of the iteration is the phase result, and a non-failed
attempt breaks the loop.  The two phase calls of attempt `i` are
abstracted by their failure flags `setupF i` and `blF i`. -/

/-- Value of `bl_failed` at the end of loop iteration `i` of `upload_main`:
the `phase_setup` flag, or the `phase_bootload` flag when setup did not fail
(bootload is not run when setup failed). -/
def attempt_failed (setupF blF : Nat → Bool) (i : Nat) : Bool :=
  if setupF i then true else blF i

/-- The `for` loop of `upload_main` with `n` iterations remaining and
`used` attempts already made; returns the total number of attempts run
and the final `bl_failed` flag. -/
def upload_loop (setupF blF : Nat → Bool) : Nat → Nat → Nat × Bool
  | 0, used => (used, true)
  | n + 1, used =>
    if attempt_failed setupF blF used then upload_loop setupF blF n (used + 1)
    else (used + 1, false)

/-- Source `upload_main` with `num_tries = 3`. -/
def upload_main (setupF blF : Nat → Bool) : Nat × Bool :=
  upload_loop setupF blF 3 0

/-! ## Auxiliary definitions used by the claim statements -/

/-- A valid frame-request (`NEXT`) packet. -/
def nextPacket : Packet := ⟨3, SVL_CMD_NEXT, [], 0, 0⟩

/-- Packet stream of a device that sends one valid `NEXT` and then never
answers again (every later read times out, yielding the initial packet
dict). -/
def silentAfterFirstNext : Nat → Packet :=
  fun i => if i = 0 then nextPacket else initPacket

/-- The Bootload loop never leaves, whatever iteration bound it is
granted. -/
def bootload_diverges (application : List Nat) (pkts : Nat → Packet) : Prop :=
  ∀ fuel, phase_bootload application pkts fuel = none

/-- The state after the single `NEXT` of the empty image has been handled:
the host has sent its close-out `DONE`. -/
def doneSentState : BLState := ⟨1, 0, true, [(SVL_CMD_DONE, [])], []⟩

/-- A packet the Setup loop merely counts: fully received, CRC-clean,
and not a version packet. -/
def okNonVer (p : Packet) : Prop :=
  p.timeout = 0 ∧ p.crc = 0 ∧ p.cmd ≠ SVL_CMD_VER

/-- The `remote`-insensitive part of a Setup outcome. -/
def SetupRes.core (r : SetupRes) : Bool × Option Nat × List (Nat × List Nat) :=
  (r.failed, r.version, r.sent)


/-! ## CRC engine lemmas -/

set_option maxRecDepth 4096 in
theorem crcTable_getD_zero : crcTable.getD 0 0 = 0 := by decide

set_option maxRecDepth 4096 in
theorem crcTable_getElem_zero : crcTable[0]?.getD 0 = 0 := by decide

theorem shiftLeft8_shiftRight8 (x : Nat) : (x <<< 8) >>> 8 = x := by
  rw [Nat.shiftLeft_eq, Nat.shiftRight_eq_div_pow]
  exact Nat.mul_div_cancel x (by norm_num)

theorem shiftLeft8_and_255 (x : Nat) : (x <<< 8) &&& 255 = 0 := by
  rw [show (255 : Nat) = 2 ^ 8 - 1 from rfl, Nat.and_pow_two_sub_one_eq_mod,
    Nat.shiftLeft_eq]
  exact Nat.mul_mod_left x (2 ^ 8)

theorem and_255_eq_mod (x : Nat) : x &&& 255 = x % 256 := by
  rw [show (255 : Nat) = 2 ^ 8 - 1 from rfl, Nat.and_pow_two_sub_one_eq_mod]

/-- Feeding the high CRC byte into the CRC step from the matching CRC
state hits table entry 0, leaving `(crc & 0xFF) << 8`. -/
theorem crcStep_hi (c : Nat) : crcStep c (c >>> 8) = (c &&& 0xFF) <<< 8 := by
  simp [crcStep, Nat.xor_self, crcTable_getElem_zero]

/-- Feeding the low CRC byte then drives the state to 0. -/
theorem crcStep_lo (c : Nat) : crcStep ((c &&& 0xFF) <<< 8) (c &&& 0xFF) = 0 := by
  simp [crcStep, shiftLeft8_shiftRight8, Nat.xor_self, crcTable_getElem_zero,
    shiftLeft8_and_255]

/-- CRC residue: re-running `get_crc16` over any payload with its own
CRC appended as two big-endian bytes yields 0. -/
theorem get_crc16_append_crc (payload : List Nat) :
    get_crc16 (payload ++ toBytes2BE (get_crc16 payload)) = 0 := by
  have hdiv : get_crc16 payload / 256 = get_crc16 payload >>> 8 := by
    rw [Nat.shiftRight_eq_div_pow]
  have hmod : get_crc16 payload % 256 = get_crc16 payload &&& 0xFF :=
    (and_255_eq_mod _).symm
  have h : get_crc16 (payload ++ toBytes2BE (get_crc16 payload)) =
      crcStep (crcStep (get_crc16 payload) (get_crc16 payload / 256))
        (get_crc16 payload % 256) := by
    simp [get_crc16, toBytes2BE, List.foldl_append]
  rw [h, hdiv, hmod, crcStep_hi]
  exact crcStep_lo _

/-! ## Codec helper lemmas -/

theorem fromBytesBE_toBytes2BE (n : Nat) : fromBytesBE (toBytes2BE n) = n := by
  simp [fromBytesBE, toBytes2BE]
  omega

/-- Decoding a well-framed stream (2-byte big-endian length prefix of a
nonempty payload, followed by exactly that payload). -/
theorem wait_for_packet_framed (payload : List Nat) (h : payload ≠ []) :
    wait_for_packet (toBytes2BE payload.length ++ payload) =
      ⟨payload.length, payload.headD 0,
        (payload.drop 1).take (payload.length - 3), get_crc16 payload, 0⟩ := by
  have hlen0 : payload.length ≠ 0 := by
    simpa [List.length_eq_zero] using h
  unfold wait_for_packet
  simp only [toBytes2BE, List.cons_append, List.nil_append]
  have htake : (payload.length / 256 :: payload.length % 256 :: payload).take 2 =
      [payload.length / 256, payload.length % 256] := by
    simp [List.take]
  have hdrop : (payload.length / 256 :: payload.length % 256 :: payload).drop 2 =
      payload := by
    simp
  rw [htake, hdrop]
  have hfb : fromBytesBE [payload.length / 256, payload.length % 256] =
      payload.length := by
    simp [fromBytesBE]
    omega
  rw [hfb]
  simp [hlen0, List.take_length]

/-!  ## Claim theorems: packet codec -/

/-- C5: for every command byte and data byte sequence, re-computing the
CRC16 over the full transmitted payload — the command byte, the data,
and the two big-endian bytes of `crc16(command ‖ data)` appended —
yields exactly 0. -/
theorem crc_full_payload_residue_zero (cmd : Nat) (data : List Nat)
    (hcmd : cmd < 256) (hdata : ∀ b ∈ data, b < 256) :
    get_crc16 ((cmd :: data) ++ toBytes2BE (get_crc16 (cmd :: data))) = 0 :=
  get_crc16_append_crc (cmd :: data)

theorem crc_full_payload_residue_zero_witness :
    (0x04 : Nat) < 256 ∧ (∀ b ∈ [0xDE, 0xAD, 0xBE, 0xEF], b < 256) ∧
      get_crc16 ((0x04 :: [0xDE, 0xAD, 0xBE, 0xEF]) ++
        toBytes2BE (get_crc16 (0x04 :: [0xDE, 0xAD, 0xBE, 0xEF]))) = 0 :=
  ⟨by norm_num, by decide,
    crc_full_payload_residue_zero 0x04 [0xDE, 0xAD, 0xBE, 0xEF]
      (by norm_num) (by decide)⟩

/-- C4: decoding the bytes produced by encoding `(cmd, data)` yields a
packet with the original command and data, `timeout = 0`, and CRC
re-verification result 0, for every command byte and every data byte
sequence of length at most about 8000. -/
theorem decode_encode_roundtrip (cmd : Nat) (data : List Nat)
    (hcmd : cmd < 256) (hlen : data.length ≤ 8000)
    (hdata : ∀ b ∈ data, b < 256) :
    (wait_for_packet (send_packet cmd data)).cmd = cmd ∧
    (wait_for_packet (send_packet cmd data)).data = data ∧
    (wait_for_packet (send_packet cmd data)).timeout = 0 ∧
    (wait_for_packet (send_packet cmd data)).crc = 0 := by
  have hp : (cmd :: data ++ toBytes2BE (get_crc16 (cmd :: data))) ≠ [] := by
    simp
  have hplen : (cmd :: data ++ toBytes2BE (get_crc16 (cmd :: data))).length =
      3 + data.length := by
    simp [toBytes2BE]
    omega
  have hw : wait_for_packet (send_packet cmd data) =
      ⟨3 + data.length, cmd, data,
        get_crc16 (cmd :: data ++ toBytes2BE (get_crc16 (cmd :: data))), 0⟩ := by
    have := wait_for_packet_framed
      (cmd :: data ++ toBytes2BE (get_crc16 (cmd :: data))) hp
    rw [hplen] at this
    unfold send_packet
    rw [this]
    have hdata3 :
        ((cmd :: data ++ toBytes2BE (get_crc16 (cmd :: data))).drop 1).take
          (3 + data.length - 3) = data := by
      simp [toBytes2BE]
    simp [hdata3]
  rw [hw]
  refine ⟨rfl, rfl, rfl, ?_⟩
  simpa using get_crc16_append_crc (cmd :: data)

theorem decode_encode_roundtrip_witness :
    (0x07 : Nat) < 256 ∧ ([0x68, 0x69] : List Nat).length ≤ 8000 ∧
      (∀ b ∈ [0x68, 0x69], b < 256) ∧
      (wait_for_packet (send_packet 0x07 [0x68, 0x69])).cmd = 0x07 ∧
      (wait_for_packet (send_packet 0x07 [0x68, 0x69])).data = [0x68, 0x69] ∧
      (wait_for_packet (send_packet 0x07 [0x68, 0x69])).timeout = 0 ∧
      (wait_for_packet (send_packet 0x07 [0x68, 0x69])).crc = 0 :=
  ⟨by norm_num, by decide, by decide,
    decode_encode_roundtrip 0x07 [0x68, 0x69] (by norm_num) (by decide)
      (by decide)⟩

/-- C1 counterexample: a stream whose first two bytes are a big-endian
length prefix equal to 0 decodes to a packet whose `timeout` flag and
CRC-failure indicator are both still SET (= 1), not clear — callers
checking the error discriminants treat it as a failed read. -/
theorem zero_length_packet_not_benign :
    (wait_for_packet [0, 0]).timeout = 1 ∧ (wait_for_packet [0, 0]).crc = 1 := by
  decide

/-- C1 amended: on a zero big-endian length prefix, `wait_for_packet`
returns early with the initial packet dict — `len = 0`, `cmd = 0`,
empty data, but `crc = 1` and `timeout = 1` (so a caller checking the
error discriminants treats it as a timed-out / CRC-failed read, not as
a benign idle signal). -/
theorem zero_length_packet_decodes_to_init (rest : List Nat) :
    wait_for_packet (0 :: 0 :: rest) = initPacket := by
  unfold wait_for_packet
  simp [List.take, fromBytesBE, initPacket]

/-! ## Claim theorems: whole-session retry loop -/

/-- C2: each failed attempt (whether `phase_setup` or `phase_bootload`
failed — both flags fail the attempt identically) re-runs the whole
Setup+Bootload sequence from the top; up to 3 full attempts are made,
and only after all 3 fail does the session end with `bl_failed = true`. -/
theorem upload_retries_whole_sequence :
    (∀ setupF blF i, i < 3 →
      (∀ j, j < i → attempt_failed setupF blF j = true) →
      attempt_failed setupF blF i = false →
      upload_main setupF blF = (i + 1, false)) ∧
    (∀ setupF blF, (∀ i, i < 3 → attempt_failed setupF blF i = true) →
      upload_main setupF blF = (3, true)) ∧
    (∀ setupF blF i,
      attempt_failed setupF blF i = true ↔ (setupF i = true ∨ blF i = true)) := by
  refine ⟨?_, ?_, ?_⟩
  · intro sF bF i hi hprev hcur
    interval_cases i
    · simp [upload_main, upload_loop, hcur]
    · have h0 := hprev 0 (by norm_num)
      simp [upload_main, upload_loop, h0, hcur]
    · have h0 := hprev 0 (by norm_num)
      have h1 := hprev 1 (by norm_num)
      simp [upload_main, upload_loop, h0, h1, hcur]
  · intro sF bF hall
    have h0 := hall 0 (by norm_num)
    have h1 := hall 1 (by norm_num)
    have h2 := hall 2 (by norm_num)
    simp [upload_main, upload_loop, h0, h1, h2]
  · intro sF bF i
    unfold attempt_failed
    cases h : sF i <;> simp

theorem upload_retries_whole_sequence_witness :
    upload_main (fun _ => true) (fun _ => true) = (3, true) ∧
    upload_main (fun i => decide (i = 0)) (fun _ => false) = (2, false) :=
  ⟨upload_retries_whole_sequence.2.1 (fun _ => true) (fun _ => true)
      (fun i _ => by simp [attempt_failed]),
   upload_retries_whole_sequence.1 (fun i => decide (i = 0)) (fun _ => false) 1
      (by norm_num)
      (fun j hj => by interval_cases j; simp [attempt_failed])
      (by simp [attempt_failed])⟩

/-! ## Claim theorems: Bootload termination (C3) -/

theorem bl_run_stuck_after_done (fuel : Nat) :
    ∀ i, bl_run [] 0 silentAfterFirstNext fuel (i + 1) doneSentState = none := by
  induction fuel with
  | zero => intro i; rfl
  | succ n ih =>
    intro i
    have hp : silentAfterFirstNext (i + 1) = initPacket := by
      simp [silentAfterFirstNext]
    have hstep : bl_step [] 0 initPacket doneSentState = .cont doneSentState := by
      decide
    simp only [bl_run, hp, hstep]
    exact ih (i + 1)

/-- C3 counterexample: an upload attempt on the empty image where the
device requests one frame (`NEXT`, driving the host to send its
close-out `DONE`) and then never answers again — every later read
timing out — never reaches a terminal success or failure: the Bootload
loop runs forever. -/
theorem bootload_loop_can_run_forever :
    bootload_diverges [] silentAfterFirstNext := by
  intro fuel
  cases fuel with
  | zero => rfl
  | succ n =>
    have hp : silentAfterFirstNext 0 = nextPacket := rfl
    have hstep : bl_step [] (totalFrames ([] : List Nat).length) nextPacket blInit =
        .cont doneSentState := by decide
    simp only [phase_bootload, bl_run, hp, hstep]
    exact bl_run_stuck_after_done n 0

/-- C3 amended: before the host has sent its close-out `DONE`, a
timed-out read (any packet with the `timeout` flag and a command that is
neither `MSG` nor `DONE` — in particular the initial dict a timed-out
`wait_for_packet` returns) ends the attempt at that very iteration as a
failure; but after the host has sent `DONE`, every packet other than
`MSG`/`DONE` — timed-out reads included — is ignored with no state
change, so the loop terminates only if the device eventually answers
with `DONE`. -/
theorem bootload_timeout_termination :
    (∀ app tf pkts fuel i s, s.done_sent = false →
      (pkts i).timeout ≠ 0 →
      (pkts i).cmd ≠ SVL_CMD_MSG → (pkts i).cmd ≠ SVL_CMD_DONE →
      bl_run app tf pkts (fuel + 1) i s = some (true, s)) ∧
    (∀ app tf pkts fuel i s, s.done_sent = true →
      (pkts i).cmd ≠ SVL_CMD_MSG → (pkts i).cmd ≠ SVL_CMD_DONE →
      bl_run app tf pkts (fuel + 1) i s = bl_run app tf pkts fuel (i + 1) s) := by
  constructor
  · intro app tf pkts fuel i s hds hto hmsg hdone
    simp [bl_run, bl_step, hds, hto, hmsg, hdone]
  · intro app tf pkts fuel i s hds hmsg hdone
    simp [bl_run, bl_step, hds, hmsg, hdone]

theorem bootload_timeout_termination_witness :
    bl_run [] 0 (fun _ => initPacket) 6 0 blInit = some (true, blInit) ∧
    bl_run [] 0 (fun _ => initPacket) 6 0 doneSentState =
      bl_run [] 0 (fun _ => initPacket) 5 1 doneSentState :=
  ⟨bootload_timeout_termination.1 [] 0 (fun _ => initPacket) 5 0 blInit
      rfl (by decide) (by decide) (by decide),
   bootload_timeout_termination.2 [] 0 (fun _ => initPacket) 5 0 doneSentState
      rfl (by decide) (by decide)⟩

/-! ## Claim theorems: Bootload counters, frames, MSG handling -/

/-- C6: before the close-out `DONE` of the host, a valid `NEXT` increments
the frame counter and resets `resend_count` to 0; a valid `RETRY`
increments `resend_count`, and the moment it reaches `resend_max = 4`
the attempt fails with the state recording the fourth increment and
nothing further sent (no `FRAME` for that request). -/
theorem bootload_counter_discipline :
    (∀ app tf p s, s.done_sent = false → p.timeout = 0 → p.crc = 0 →
      p.cmd = SVL_CMD_NEXT →
      bl_step app tf p s =
        .cont (bl_send app tf
          { s with curr_frame := s.curr_frame + 1, resend_count := 0 })) ∧
    (∀ app tf p s, s.done_sent = false → p.timeout = 0 → p.crc = 0 →
      p.cmd = SVL_CMD_RETRY → s.resend_count + 1 < resend_max →
      bl_step app tf p s =
        .cont (bl_send app tf { s with resend_count := s.resend_count + 1 })) ∧
    (∀ app tf p s, s.done_sent = false → p.timeout = 0 → p.crc = 0 →
      p.cmd = SVL_CMD_RETRY → s.resend_count + 1 ≥ resend_max →
      bl_step app tf p s = .halt true { s with resend_count := s.resend_count + 1 }) := by
  refine ⟨?_, ?_, ?_⟩
  · intro app tf p s hds hto hcrc hcmd
    simp [bl_step, hds, hto, hcrc, hcmd, SVL_CMD_MSG, SVL_CMD_DONE, SVL_CMD_NEXT]
  · intro app tf p s hds hto hcrc hcmd hres
    have : ¬ (s.resend_count + 1 ≥ resend_max) := not_le.mpr hres
    simp [bl_step, hds, hto, hcrc, hcmd, this,
      SVL_CMD_MSG, SVL_CMD_DONE, SVL_CMD_NEXT, SVL_CMD_RETRY]
  · intro app tf p s hds hto hcrc hcmd hres
    simp [bl_step, hds, hto, hcrc, hcmd, hres,
      SVL_CMD_MSG, SVL_CMD_DONE, SVL_CMD_NEXT, SVL_CMD_RETRY]

theorem bootload_counter_discipline_witness :
    bl_step [] 0 ⟨3, SVL_CMD_NEXT, [], 0, 0⟩ blInit =
      .cont (bl_send [] 0 { blInit with curr_frame := 1, resend_count := 0 }) ∧
    bl_step [] 0 ⟨3, SVL_CMD_RETRY, [], 0, 0⟩ blInit =
      .cont (bl_send [] 0 { blInit with resend_count := 1 }) ∧
    bl_step [] 0 ⟨3, SVL_CMD_RETRY, [], 0, 0⟩ { blInit with resend_count := 3 } =
      .halt true { blInit with resend_count := 4 } :=
  ⟨bootload_counter_discipline.1 [] 0 _ blInit rfl rfl rfl rfl,
   bootload_counter_discipline.2.1 [] 0 _ blInit rfl rfl rfl rfl (by decide),
   bootload_counter_discipline.2.2 [] 0 _ { blInit with resend_count := 3 }
     rfl rfl rfl rfl (by decide)⟩

/-- C7: `total_frames` is the exact ceiling of the image size by the
2048-byte frame size; a handled `NEXT`/`RETRY` whose resulting frame
number `f` satisfies `f ≤ total_frames` makes the host send a `FRAME`
packet whose payload is exactly the image bytes
`[(f-1)*2048, f*2048)` (last frame truncated); once the frame number
exceeds `total_frames` the host sends `DONE` with empty data and sets
`done_sent`; and a 5000-byte image yields 3 frames of sizes
2048/2048/904. -/
theorem bootload_frame_slicing :
    (∀ len : Nat, len ≤ totalFrames len * frame_size ∧
      totalFrames len * frame_size < len + frame_size) ∧
    (∀ (app : List Nat) (p : Packet) s, s.done_sent = false →
      p.timeout = 0 → p.crc = 0 → p.cmd = SVL_CMD_NEXT →
      s.curr_frame + 1 ≤ totalFrames app.length →
      bl_step app (totalFrames app.length) p s =
        .cont { s with
          curr_frame := s.curr_frame + 1
          resend_count := 0
          sent := s.sent ++ [(SVL_CMD_FRAME, frameData app (s.curr_frame + 1))] }) ∧
    (∀ (app : List Nat) (p : Packet) s, s.done_sent = false →
      p.timeout = 0 → p.crc = 0 → p.cmd = SVL_CMD_RETRY →
      s.resend_count + 1 < resend_max → s.curr_frame ≤ totalFrames app.length →
      bl_step app (totalFrames app.length) p s =
        .cont { s with
          resend_count := s.resend_count + 1
          sent := s.sent ++ [(SVL_CMD_FRAME, frameData app s.curr_frame)] }) ∧
    (∀ (app : List Nat) (p : Packet) s, s.done_sent = false →
      p.timeout = 0 → p.crc = 0 → p.cmd = SVL_CMD_NEXT →
      s.curr_frame + 1 > totalFrames app.length →
      bl_step app (totalFrames app.length) p s =
        .cont { s with
          curr_frame := s.curr_frame + 1
          resend_count := 0
          done_sent := true
          sent := s.sent ++ [(SVL_CMD_DONE, [])] }) ∧
    (∀ (app : List Nat) (f : Nat), 1 ≤ f →
      (frameData app f).length =
        min frame_size (app.length - (f - 1) * frame_size) ∧
      ∀ j, j < frame_size →
        (frameData app f).get? j = app.get? ((f - 1) * frame_size + j)) ∧
    (totalFrames (List.replicate 5000 (0 : Nat)).length = 3 ∧
      (frameData (List.replicate 5000 (0 : Nat)) 1).length = 2048 ∧
      (frameData (List.replicate 5000 (0 : Nat)) 2).length = 2048 ∧
      (frameData (List.replicate 5000 (0 : Nat)) 3).length = 904) := by
  refine ⟨?_, ?_, ?_, ?_, ?_, ?_⟩
  · intro len
    simp only [totalFrames, frame_size]
    omega
  · intro app p s hds hto hcrc hcmd hle
    simp [bl_step, bl_send, hds, hto, hcrc, hcmd, hle,
      SVL_CMD_MSG, SVL_CMD_DONE, SVL_CMD_NEXT]
  · intro app p s hds hto hcrc hcmd hres hle
    have : ¬ (s.resend_count + 1 ≥ resend_max) := not_le.mpr hres
    simp [bl_step, bl_send, hds, hto, hcrc, hcmd, this, hle,
      SVL_CMD_MSG, SVL_CMD_DONE, SVL_CMD_NEXT, SVL_CMD_RETRY]
  · intro app p s hds hto hcrc hcmd hgt
    have : ¬ (s.curr_frame + 1 ≤ totalFrames app.length) := not_le.mpr hgt
    simp [bl_step, bl_send, hds, hto, hcrc, hcmd, this,
      SVL_CMD_MSG, SVL_CMD_DONE, SVL_CMD_NEXT]
  · intro app f hf
    have hf0 : f ≠ 0 := by omega
    constructor
    · simp [frameData, hf0]
    · intro j hj
      simp only [frameData, hf0, if_false]
      rw [List.get?_take hj, List.get?_drop]
  · refine ⟨by norm_num [totalFrames, frame_size], ?_, ?_, ?_⟩ <;>
      norm_num [frameData, frame_size]

theorem bootload_frame_slicing_witness :
    (5000 : Nat) ≤ totalFrames 5000 * frame_size ∧
    totalFrames 5000 * frame_size < 5000 + frame_size ∧
    bl_step [37] (totalFrames [37].length) ⟨3, SVL_CMD_NEXT, [], 0, 0⟩ blInit =
      .cont { blInit with
        curr_frame := 1
        resend_count := 0
        sent := blInit.sent ++ [(SVL_CMD_FRAME, frameData [37] 1)] } :=
  ⟨(bootload_frame_slicing.1 5000).1,
   (bootload_frame_slicing.1 5000).2,
   bootload_frame_slicing.2.1 [37] ⟨3, SVL_CMD_NEXT, [], 0, 0⟩ blInit
     rfl rfl rfl rfl (by decide)⟩

/-- C9: a `MSG` packet is handled first in the dispatch of the Bootload loop:
its data is appended to the remote log and every transfer-state
component (`curr_frame`, `resend_count`, `done_sent`, packets sent) is
left unchanged, after which the loop goes on with that state. -/
theorem bootload_msg_preserves_state :
    (∀ app tf (p : Packet) s, p.cmd = SVL_CMD_MSG →
      bl_step app tf p s = .cont { s with remote := s.remote ++ [p.data] }) ∧
    (∀ app tf pkts fuel i s, (pkts i).cmd = SVL_CMD_MSG →
      bl_run app tf pkts (fuel + 1) i s =
        bl_run app tf pkts fuel (i + 1)
          { s with remote := s.remote ++ [(pkts i).data] }) := by
  constructor
  · intro app tf p s hcmd
    simp [bl_step, hcmd]
  · intro app tf pkts fuel i s hcmd
    simp [bl_run, bl_step, hcmd]

theorem bootload_msg_preserves_state_witness :
    bl_step [] 0 ⟨4, SVL_CMD_MSG, [0x41], 0, 0⟩ doneSentState =
      .cont { doneSentState with remote := doneSentState.remote ++ [[0x41]] } :=
  bootload_msg_preserves_state.1 [] 0 ⟨4, SVL_CMD_MSG, [0x41], 0, 0⟩
    doneSentState rfl

/-- C10: the Bootload loop dispatches on the command byte before looking
at the `timeout`/CRC discriminants — a fully-received packet whose
command byte is `DONE` ends the phase successfully even with a failing
CRC re-verification, and a CRC-failed `MSG` packet is forwarded as a
remote log line rather than treated as a receive error. -/
theorem bootload_cmd_dispatch_before_error_check :
    (∀ app tf (p : Packet) s, p.timeout = 0 → p.crc ≠ 0 →
      p.cmd = SVL_CMD_DONE → bl_step app tf p s = .halt false s) ∧
    (∀ app tf (p : Packet) s, p.timeout = 0 → p.crc ≠ 0 →
      p.cmd = SVL_CMD_MSG →
      bl_step app tf p s = .cont { s with remote := s.remote ++ [p.data] }) := by
  constructor
  · intro app tf p s hto hcrc hcmd
    simp [bl_step, hcmd, SVL_CMD_MSG, SVL_CMD_DONE]
  · intro app tf p s hto hcrc hcmd
    simp [bl_step, hcmd]

theorem bootload_cmd_dispatch_before_error_check_witness :
    bl_step [] 0 ⟨3, SVL_CMD_DONE, [], 0xBEEF, 0⟩ blInit = .halt false blInit ∧
    bl_step [] 0 ⟨4, SVL_CMD_MSG, [0x41], 0xBEEF, 0⟩ blInit =
      .cont { blInit with remote := blInit.remote ++ [[0x41]] } :=
  ⟨bootload_cmd_dispatch_before_error_check.1 [] 0 _ blInit rfl (by decide) rfl,
   bootload_cmd_dispatch_before_error_check.2 [] 0 _ blInit rfl (by decide) rfl⟩

/-! ## Claim theorems: Setup phase (C8) -/

theorem setup_loop_step_nonver (pkts : Nat → Packet) (i counter : Nat)
    (h : okNonVer (pkts i)) (hc : counter + 1 ≤ 10) :
    (setup_loop pkts i counter).core =
      (setup_loop pkts (i + 1) (counter + 1)).core := by
  obtain ⟨hto, hcrc, hver⟩ := h
  have hv : (pkts i).cmd ≠ 1 := hver
  have hct : ¬ (counter + 1 > 10) := by omega
  conv_lhs => rw [setup_loop]
  by_cases hmsg : (pkts i).cmd = 7 <;>
    simp [hto, hcrc, hv, hct, hmsg, SetupRes.core, SVL_CMD_VER, SVL_CMD_MSG]

theorem setup_loop_skip (pkts : Nat → Packet) :
    ∀ k i counter, (∀ j, j < k → okNonVer (pkts (i + j))) →
      counter + k ≤ 10 →
      (setup_loop pkts i counter).core =
        (setup_loop pkts (i + k) (counter + k)).core := by
  intro k
  induction k with
  | zero => intro i counter _ _; rfl
  | succ n ih =>
    intro i counter h hc
    have h0 : okNonVer (pkts i) := by simpa using h 0 (Nat.succ_pos n)
    have step := setup_loop_step_nonver pkts i counter h0 (by omega)
    have rest := ih (i + 1) (counter + 1)
      (fun j hj => by
        have := h (j + 1) (by omega)
        simpa [Nat.add_assoc, Nat.add_comm 1 j] using this)
      (by omega)
    rw [step, rest]
    have e1 : i + 1 + n = i + (n + 1) := by omega
    have e2 : counter + 1 + n = counter + (n + 1) := by omega
    rw [e1, e2]

theorem setup_loop_ver (pkts : Nat → Packet) (i counter : Nat)
    (hto : (pkts i).timeout = 0) (hcrc : (pkts i).crc = 0)
    (hcmd : (pkts i).cmd = SVL_CMD_VER) :
    setup_loop pkts i counter =
      ⟨false, some (fromBytesBE (pkts i).data), [(SVL_CMD_BL, [])], []⟩ := by
  rw [setup_loop]
  simp [hto, hcrc, hcmd]

theorem setup_loop_abort (pkts : Nat → Packet) (i counter : Nat)
    (h : (pkts i).timeout ≠ 0 ∨ (pkts i).crc ≠ 0) :
    setup_loop pkts i counter = ⟨true, none, [], []⟩ := by
  by_cases hto : (pkts i).timeout ≠ 0
  · rw [setup_loop]; simp [hto]
  · have hto0 : (pkts i).timeout = 0 := by omega
    have hcrc : (pkts i).crc ≠ 0 := by
      rcases h with h | h
      · exact absurd h hto
      · exact h
    rw [setup_loop]; simp [hto0, hcrc]

theorem setup_loop_exhaust (pkts : Nat → Packet) (i : Nat)
    (h : okNonVer (pkts i)) :
    (setup_loop pkts i 10).failed = true := by
  obtain ⟨hto, hcrc, hver⟩ := h
  have hv : (pkts i).cmd ≠ 1 := hver
  rw [setup_loop]
  by_cases hmsg : (pkts i).cmd = 7 <;>
    simp [hto, hcrc, hv, hmsg, SVL_CMD_VER, SVL_CMD_MSG]

/-- C8: the Setup loop exits successfully on the first version packet
(recording `installed_bootloader` as the big-endian value of its data
and sending a `BL` command with empty data), provided at most 10
well-received non-version packets preceded it; it aborts as failed on
the first timed-out or CRC-failed packet; and it aborts as failed once
11 well-received non-version packets have been seen with no version
packet. -/
theorem setup_version_handshake :
    (∀ pkts k, k ≤ 10 → (∀ j, j < k → okNonVer (pkts j)) →
      (pkts k).timeout = 0 → (pkts k).crc = 0 → (pkts k).cmd = SVL_CMD_VER →
      (phase_setup pkts).failed = false ∧
      (phase_setup pkts).version = some (fromBytesBE (pkts k).data) ∧
      (phase_setup pkts).sent = [(SVL_CMD_BL, [])]) ∧
    (∀ pkts k, k ≤ 10 → (∀ j, j < k → okNonVer (pkts j)) →
      ((pkts k).timeout ≠ 0 ∨ (pkts k).crc ≠ 0) →
      (phase_setup pkts).failed = true) ∧
    (∀ pkts, (∀ j, j ≤ 10 → okNonVer (pkts j)) →
      (phase_setup pkts).failed = true) := by
  refine ⟨?_, ?_, ?_⟩
  · intro pkts k hk h hto hcrc hcmd
    have hskip := setup_loop_skip pkts k 0 0
      (fun j hj => by simpa using h j hj) (by omega)
    have hval := setup_loop_ver pkts k k (by simpa using hto)
      (by simpa using hcrc) (by simpa using hcmd)
    have hcore : (phase_setup pkts).core = (setup_loop pkts k k).core := by
      simpa [phase_setup] using hskip
    rw [hval] at hcore
    refine ⟨?_, ?_, ?_⟩
    · simpa [SetupRes.core] using congrArg (fun x => x.1) hcore
    · simpa [SetupRes.core] using congrArg (fun x => x.2.1) hcore
    · simpa [SetupRes.core] using congrArg (fun x => x.2.2) hcore
  · intro pkts k hk h herr
    have hskip := setup_loop_skip pkts k 0 0
      (fun j hj => by simpa using h j hj) (by omega)
    have hval := setup_loop_abort pkts k k (by simpa using herr)
    have hcore : (phase_setup pkts).core = (setup_loop pkts k k).core := by
      simpa [phase_setup] using hskip
    rw [hval] at hcore
    have := congrArg Prod.fst hcore
    simpa [SetupRes.core] using this
  · intro pkts h
    have hskip := setup_loop_skip pkts 10 0 0
      (fun j hj => by simpa using h j (by omega)) (by omega)
    have hval := setup_loop_exhaust pkts 10 (by simpa using h 10 (by omega))
    have hcore : (phase_setup pkts).core = (setup_loop pkts 10 10).core := by
      simpa [phase_setup] using hskip
    have := congrArg Prod.fst hcore
    simp only [SetupRes.core] at this
    rw [this, hval]

theorem setup_version_handshake_witness :
    (phase_setup (fun _ => ⟨4, SVL_CMD_VER, [6], 0, 0⟩)).failed = false ∧
    (phase_setup (fun _ => ⟨4, SVL_CMD_VER, [6], 0, 0⟩)).version = some 6 ∧
    (phase_setup (fun _ => ⟨4, SVL_CMD_VER, [6], 0, 0⟩)).sent =
      [(SVL_CMD_BL, [])] := by
  have h := setup_version_handshake.1 (fun _ => ⟨4, SVL_CMD_VER, [6], 0, 0⟩) 0
    (by norm_num) (fun j hj => absurd hj (by omega)) rfl rfl rfl
  simpa [fromBytesBE] using h

end ArtemisSVL
